import Mathlib

/-!
Verification of the signaling-service specification against a shallow
embedding of the Rust sources (`src/signaling/src/`).

Hash maps (`HashMap<K, V>`) are embedded as association lists with
first-occurrence lookup semantics; UUIDs and channel endpoints are embedded
as natural numbers (a send to a participant's `sender` channel is recorded
as a pair `(connection_id, frame)`); async functions become pure state
transformers returning the new state together with the list of frames sent.
-/

/-! ## Association-list primitives (embedding of `HashMap`) -/

/-- First-occurrence lookup, the embedding of `HashMap::get`. -/
def lookupA {κ α : Type} [DecidableEq κ] : List (κ × α) → κ → Option α
  | [], _ => none
  | (k, v) :: rest, key => if k = key then some v else lookupA rest key

/-- Replace the first binding of `key` (or append one), the embedding of
`HashMap::insert` / `entry(..).or_insert(..)` followed by mutation. -/
def setA {κ α : Type} [DecidableEq κ] : List (κ × α) → κ → α → List (κ × α)
  | [], key, v => [(key, v)]
  | (k, w) :: rest, key, v =>
    if k = key then (k, v) :: rest else (k, w) :: setA rest key v

/-- Remove the first binding of `key`, the embedding of `HashMap::remove`. -/
def eraseA {κ α : Type} [DecidableEq κ] : List (κ × α) → κ → List (κ × α)
  | [], _ => []
  | (k, v) :: rest, key =>
    if k = key then rest else (k, v) :: eraseA rest key

theorem lookupA_setA_self {κ α : Type} [DecidableEq κ]
    (l : List (κ × α)) (k : κ) (v : α) : lookupA (setA l k v) k = some v := by
  induction l with
  | nil => simp [setA, lookupA]
  | cons hd tl ih =>
    obtain ⟨k₀, v₀⟩ := hd
    by_cases h : k₀ = k
    · simp [setA, lookupA, h]
    · simp [setA, lookupA, h, ih]

theorem lookupA_setA_ne {κ α : Type} [DecidableEq κ]
    (l : List (κ × α)) (k k' : κ) (v : α) (h : k' ≠ k) :
    lookupA (setA l k v) k' = lookupA l k' := by
  have h' : k ≠ k' := Ne.symm h
  induction l with
  | nil => simp [setA, lookupA, h']
  | cons hd tl ih =>
    obtain ⟨k₀, v₀⟩ := hd
    by_cases hk : k₀ = k
    · subst hk
      simp [setA, lookupA, h']
    · simp [setA, lookupA, hk, ih]

theorem setA_lookup_self {κ α : Type} [DecidableEq κ]
    (l : List (κ × α)) (k : κ) (v : α) (h : lookupA l k = some v) :
    setA l k v = l := by
  induction l with
  | nil => simp [lookupA] at h
  | cons hd tl ih =>
    obtain ⟨k₀, v₀⟩ := hd
    by_cases hk : k₀ = k
    · subst hk
      simp [lookupA] at h
      simp [setA, h]
    · simp [lookupA, hk] at h
      simp [setA, hk, ih h]

theorem lookupA_not_mem {κ α : Type} [DecidableEq κ]
    (l : List (κ × α)) (k : κ) (h : k ∉ l.map Prod.fst) :
    lookupA l k = none := by
  induction l with
  | nil => rfl
  | cons hd tl ih =>
    obtain ⟨k₀, v₀⟩ := hd
    simp only [List.map_cons, List.mem_cons] at h
    push_neg at h
    have h₀ : k₀ ≠ k := Ne.symm h.1
    simp [lookupA, h₀, ih h.2]

theorem lookupA_eraseA_self {κ α : Type} [DecidableEq κ]
    (l : List (κ × α)) (k : κ) (hnd : (l.map Prod.fst).Nodup) :
    lookupA (eraseA l k) k = none := by
  induction l with
  | nil => simp [eraseA, lookupA]
  | cons hd tl ih =>
    obtain ⟨k₀, v₀⟩ := hd
    simp only [List.map_cons, List.nodup_cons] at hnd
    by_cases hk : k₀ = k
    · subst hk
      simp only [eraseA, if_pos rfl]
      exact lookupA_not_mem tl k₀ hnd.1
    · simp [eraseA, lookupA, hk, ih hnd.2]

theorem lookupA_eraseA_ne {κ α : Type} [DecidableEq κ]
    (l : List (κ × α)) (k k' : κ) (h : k' ≠ k) :
    lookupA (eraseA l k) k' = lookupA l k' := by
  have h' : k ≠ k' := Ne.symm h
  induction l with
  | nil => simp [eraseA]
  | cons hd tl ih =>
    obtain ⟨k₀, v₀⟩ := hd
    by_cases hk : k₀ = k
    · subst hk
      simp [eraseA, lookupA, h']
    · simp [eraseA, lookupA, hk, ih]

/-! ## Message schema (embedding of `src/signaling/src/messages.rs`) -/

/-- `Participant` from `messages.rs`. -/
structure Participant where
  user_id : Nat
  username : String
  deriving DecidableEq, Repr

/-- `ClientMessage` from `messages.rs` (serde internally tagged by `type`). -/
inductive ClientMessage where
  | Auth (token : String)
  | JoinRoom (room_name : String) (password : Option String)
  | LeaveRoom (room_name : String)
  | Offer (room_name : String) (sdp : String) (target_user_id : Option Nat)
  | Answer (room_name : String) (sdp : String) (target_user_id : Nat)
  | IceCandidate (room_name : String) (candidate : String)
      (sdp_mid : Option String) (sdp_mline_index : Option Nat)
      (target_user_id : Option Nat)
  deriving DecidableEq, Repr

/-- `ServerMessage` from `messages.rs` (serde internally tagged by `type`). -/
inductive ServerMessage where
  | RoomJoined (room_name : String) (user_id : Nat)
      (participants : List Participant)
  | RoomLeft (room_name : String) (user_id : Nat)
  | UserJoined (room_name : String) (user : Participant)
  | UserLeft (room_name : String) (user_id : Nat)
  | Offer (room_name : String) (from_user_id : Nat) (sdp : String)
  | Answer (room_name : String) (from_user_id : Nat) (sdp : String)
  | IceCandidate (room_name : String) (from_user_id : Nat) (candidate : String)
      (sdp_mid : Option String) (sdp_mline_index : Option Nat)
  | Error (message : String) (code : Option Nat)
  | Authenticated (user_id : Nat) (username : String)
  deriving DecidableEq, Repr

/-- `ServerMessage::error` from `messages.rs`. -/
def ServerMessage.mkError (message : String) : ServerMessage :=
  ServerMessage.Error message none

/-! ## JSON values and the serde codec

The JSON tree produced/consumed by `serde_json`, restricted to the shapes
the codec of `messages.rs` uses.  Serialization of an internally tagged
enum writes the `type` tag first, then the (renamed) fields in declaration
order; `Option` fields serialize as `null` when `None` and deserialize from
a missing key or `null` as `None`. -/

inductive Json where
  | null
  | bool (b : Bool)
  | str (s : String)
  | num (n : Nat)
  | arr (elems : List Json)
  | obj (fields : List (String × Json))

/-- Field access on an object (embedding of `serde_json::Value::get`). -/
def jsonGet : Json → String → Option Json
  | Json.obj fields, name => lookupA fields name
  | _, _ => none

def encodeOptStr : Option String → Json
  | none => Json.null
  | some s => Json.str s

def encodeOptNat : Option Nat → Json
  | none => Json.null
  | some n => Json.num n

/-- Serde serialization of `ClientMessage` (tag field `type`, camelCase
field renames exactly as the `#[serde(rename = ..)]` attributes). -/
def encodeClient : ClientMessage → Json
  | ClientMessage.Auth token =>
    Json.obj [("type", Json.str "auth"), ("token", Json.str token)]
  | ClientMessage.JoinRoom room_name password =>
    Json.obj [("type", Json.str "join-room"), ("roomName", Json.str room_name),
      ("password", encodeOptStr password)]
  | ClientMessage.LeaveRoom room_name =>
    Json.obj [("type", Json.str "leave-room"), ("roomName", Json.str room_name)]
  | ClientMessage.Offer room_name sdp target_user_id =>
    Json.obj [("type", Json.str "offer"), ("roomName", Json.str room_name),
      ("sdp", Json.str sdp), ("targetUserId", encodeOptNat target_user_id)]
  | ClientMessage.Answer room_name sdp target_user_id =>
    Json.obj [("type", Json.str "answer"), ("roomName", Json.str room_name),
      ("sdp", Json.str sdp), ("targetUserId", Json.num target_user_id)]
  | ClientMessage.IceCandidate room_name candidate sdp_mid sdp_mline_index
      target_user_id =>
    Json.obj [("type", Json.str "ice-candidate"),
      ("roomName", Json.str room_name), ("candidate", Json.str candidate),
      ("sdpMid", encodeOptStr sdp_mid),
      ("sdpMLineIndex", encodeOptNat sdp_mline_index),
      ("targetUserId", encodeOptNat target_user_id)]

def encodeParticipant (p : Participant) : Json :=
  Json.obj [("userId", Json.num p.user_id), ("username", Json.str p.username)]

/-- Serde serialization of `ServerMessage`. -/
def encodeServer : ServerMessage → Json
  | ServerMessage.RoomJoined room_name user_id participants =>
    Json.obj [("type", Json.str "room-joined"),
      ("roomName", Json.str room_name), ("userId", Json.num user_id),
      ("participants", Json.arr (participants.map encodeParticipant))]
  | ServerMessage.RoomLeft room_name user_id =>
    Json.obj [("type", Json.str "room-left"), ("roomName", Json.str room_name),
      ("userId", Json.num user_id)]
  | ServerMessage.UserJoined room_name user =>
    Json.obj [("type", Json.str "user-joined"),
      ("roomName", Json.str room_name), ("user", encodeParticipant user)]
  | ServerMessage.UserLeft room_name user_id =>
    Json.obj [("type", Json.str "user-left"), ("roomName", Json.str room_name),
      ("userId", Json.num user_id)]
  | ServerMessage.Offer room_name from_user_id sdp =>
    Json.obj [("type", Json.str "offer"), ("roomName", Json.str room_name),
      ("fromUserId", Json.num from_user_id), ("sdp", Json.str sdp)]
  | ServerMessage.Answer room_name from_user_id sdp =>
    Json.obj [("type", Json.str "answer"), ("roomName", Json.str room_name),
      ("fromUserId", Json.num from_user_id), ("sdp", Json.str sdp)]
  | ServerMessage.IceCandidate room_name from_user_id candidate sdp_mid
      sdp_mline_index =>
    Json.obj [("type", Json.str "ice-candidate"),
      ("roomName", Json.str room_name), ("fromUserId", Json.num from_user_id),
      ("candidate", Json.str candidate), ("sdpMid", encodeOptStr sdp_mid),
      ("sdpMLineIndex", encodeOptNat sdp_mline_index)]
  | ServerMessage.Error message code =>
    Json.obj [("type", Json.str "error"), ("message", Json.str message),
      ("code", encodeOptNat code)]
  | ServerMessage.Authenticated user_id username =>
    Json.obj [("type", Json.str "authenticated"), ("userId", Json.num user_id),
      ("username", Json.str username)]

/-! ### Deserialization -/

def getStrField (fields : List (String × Json)) (name : String) :
    Except String String :=
  match lookupA fields name with
  | some (Json.str s) => Except.ok s
  | _ => Except.error ("missing or non-string field: " ++ name)

def getNatField (fields : List (String × Json)) (name : String) :
    Except String Nat :=
  match lookupA fields name with
  | some (Json.num n) => Except.ok n
  | _ => Except.error ("missing or non-numeric field: " ++ name)

def getOptStrField (fields : List (String × Json)) (name : String) :
    Except String (Option String) :=
  match lookupA fields name with
  | none => Except.ok none
  | some Json.null => Except.ok none
  | some (Json.str s) => Except.ok (some s)
  | some _ => Except.error ("non-string field: " ++ name)

def getOptNatField (fields : List (String × Json)) (name : String) :
    Except String (Option Nat) :=
  match lookupA fields name with
  | none => Except.ok none
  | some Json.null => Except.ok none
  | some (Json.num n) => Except.ok (some n)
  | some _ => Except.error ("non-numeric field: " ++ name)

/-- Serde deserialization of `ClientMessage`: dispatch on the `type` tag;
an unknown tag is a parse error (serde's `unknown variant`). -/
def decodeClient : Json → Except String ClientMessage
  | Json.obj fields =>
    match lookupA fields "type" with
    | some (Json.str tag) =>
      if tag = "auth" then do
        let token ← getStrField fields "token"
        return ClientMessage.Auth token
      else if tag = "join-room" then do
        let room_name ← getStrField fields "roomName"
        let password ← getOptStrField fields "password"
        return ClientMessage.JoinRoom room_name password
      else if tag = "leave-room" then do
        let room_name ← getStrField fields "roomName"
        return ClientMessage.LeaveRoom room_name
      else if tag = "offer" then do
        let room_name ← getStrField fields "roomName"
        let sdp ← getStrField fields "sdp"
        let target ← getOptNatField fields "targetUserId"
        return ClientMessage.Offer room_name sdp target
      else if tag = "answer" then do
        let room_name ← getStrField fields "roomName"
        let sdp ← getStrField fields "sdp"
        let target ← getNatField fields "targetUserId"
        return ClientMessage.Answer room_name sdp target
      else if tag = "ice-candidate" then do
        let room_name ← getStrField fields "roomName"
        let candidate ← getStrField fields "candidate"
        let sdp_mid ← getOptStrField fields "sdpMid"
        let sdp_mline_index ← getOptNatField fields "sdpMLineIndex"
        let target ← getOptNatField fields "targetUserId"
        return ClientMessage.IceCandidate room_name candidate sdp_mid
          sdp_mline_index target
      else Except.error ("unknown variant " ++ tag)
    | _ => Except.error "missing type tag"
  | _ => Except.error "expected a JSON object"

def decodeParticipant : Json → Except String Participant
  | Json.obj fields => do
    let user_id ← getNatField fields "userId"
    let username ← getStrField fields "username"
    return { user_id := user_id, username := username }
  | _ => Except.error "expected a participant object"

def decodeParticipants : List Json → Except String (List Participant)
  | [] => Except.ok []
  | x :: rest => do
    let p ← decodeParticipant x
    let ps ← decodeParticipants rest
    return p :: ps

/-- Serde deserialization of `ServerMessage`. -/
def decodeServer : Json → Except String ServerMessage
  | Json.obj fields =>
    match lookupA fields "type" with
    | some (Json.str tag) =>
      if tag = "room-joined" then do
        let room_name ← getStrField fields "roomName"
        let user_id ← getNatField fields "userId"
        match lookupA fields "participants" with
        | some (Json.arr elems) => do
          let participants ← decodeParticipants elems
          return ServerMessage.RoomJoined room_name user_id participants
        | _ => Except.error "missing or non-array field: participants"
      else if tag = "room-left" then do
        let room_name ← getStrField fields "roomName"
        let user_id ← getNatField fields "userId"
        return ServerMessage.RoomLeft room_name user_id
      else if tag = "user-joined" then do
        let room_name ← getStrField fields "roomName"
        match lookupA fields "user" with
        | some u => do
          let user ← decodeParticipant u
          return ServerMessage.UserJoined room_name user
        | none => Except.error "missing field: user"
      else if tag = "user-left" then do
        let room_name ← getStrField fields "roomName"
        let user_id ← getNatField fields "userId"
        return ServerMessage.UserLeft room_name user_id
      else if tag = "offer" then do
        let room_name ← getStrField fields "roomName"
        let from_user_id ← getNatField fields "fromUserId"
        let sdp ← getStrField fields "sdp"
        return ServerMessage.Offer room_name from_user_id sdp
      else if tag = "answer" then do
        let room_name ← getStrField fields "roomName"
        let from_user_id ← getNatField fields "fromUserId"
        let sdp ← getStrField fields "sdp"
        return ServerMessage.Answer room_name from_user_id sdp
      else if tag = "ice-candidate" then do
        let room_name ← getStrField fields "roomName"
        let from_user_id ← getNatField fields "fromUserId"
        let candidate ← getStrField fields "candidate"
        let sdp_mid ← getOptStrField fields "sdpMid"
        let sdp_mline_index ← getOptNatField fields "sdpMLineIndex"
        return ServerMessage.IceCandidate room_name from_user_id candidate
          sdp_mid sdp_mline_index
      else if tag = "error" then do
        let message ← getStrField fields "message"
        let code ← getOptNatField fields "code"
        return ServerMessage.Error message code
      else if tag = "authenticated" then do
        let user_id ← getNatField fields "userId"
        let username ← getStrField fields "username"
        return ServerMessage.Authenticated user_id username
      else Except.error ("unknown variant " ++ tag)
    | _ => Except.error "missing type tag"
  | _ => Except.error "expected a JSON object"

/-- The six client frame tags defined in `messages.rs`. -/
def clientTags : List String :=
  ["auth", "join-room", "leave-room", "offer", "answer", "ice-candidate"]

/-- The nine server frame tags defined in `messages.rs`. -/
def serverTags : List String :=
  ["room-joined", "room-left", "user-joined", "user-left", "offer", "answer",
    "ice-candidate", "error", "authenticated"]

theorem decodeParticipants_encode (ps : List Participant) :
    decodeParticipants (ps.map encodeParticipant) = Except.ok ps := by
  induction ps with
  | nil => rfl
  | cons p rest ih =>
    simp only [List.map_cons, decodeParticipants, decodeParticipant,
      encodeParticipant, ih]
    rfl

theorem decodeClient_encodeClient (m : ClientMessage) :
    decodeClient (encodeClient m) = Except.ok m := by
  cases m with
  | Auth token => rfl
  | JoinRoom room_name password => cases password <;> rfl
  | LeaveRoom room_name => rfl
  | Offer room_name sdp target => cases target <;> rfl
  | Answer room_name sdp target => rfl
  | IceCandidate room_name candidate sdp_mid sdp_mline_index target =>
    cases sdp_mid <;> cases sdp_mline_index <;> cases target <;> rfl

theorem decodeServer_encodeServer (m : ServerMessage) :
    decodeServer (encodeServer m) = Except.ok m := by
  cases m with
  | RoomJoined room_name user_id participants =>
    simp [encodeServer, decodeServer, lookupA, getStrField, getNatField,
      decodeParticipants_encode participants, Except.map]
    rfl
  | RoomLeft room_name user_id => rfl
  | UserJoined room_name user => rfl
  | UserLeft room_name user_id => rfl
  | Offer room_name from_user_id sdp => rfl
  | Answer room_name from_user_id sdp => rfl
  | IceCandidate room_name from_user_id candidate sdp_mid sdp_mline_index =>
    cases sdp_mid <;> cases sdp_mline_index <;> rfl
  | Error message code => cases code <;> rfl
  | Authenticated user_id username => rfl

theorem decodeClient_unknown_tag (fields : List (String × Json)) (tag : String)
    (htag : lookupA fields "type" = some (Json.str tag))
    (h : tag ∉ clientTags) :
    decodeClient (Json.obj fields) = Except.error ("unknown variant " ++ tag) := by
  simp only [clientTags, List.mem_cons, List.not_mem_nil, or_false] at h
  push_neg at h
  obtain ⟨h1, h2, h3, h4, h5, h6⟩ := h
  simp [decodeClient, htag, h1, h2, h3, h4, h5, h6]

theorem decodeServer_unknown_tag (fields : List (String × Json)) (tag : String)
    (htag : lookupA fields "type" = some (Json.str tag))
    (h : tag ∉ serverTags) :
    decodeServer (Json.obj fields) = Except.error ("unknown variant " ++ tag) := by
  simp only [serverTags, List.mem_cons, List.not_mem_nil, or_false] at h
  push_neg at h
  obtain ⟨h1, h2, h3, h4, h5, h6, h7, h8, h9⟩ := h
  simp [decodeServer, htag, h1, h2, h3, h4, h5, h6, h7, h8, h9]

/-- C2: JSON codec round-trip: decoding the JSON encoding of any client or
server message yields the message again (all variants, optional fields
present or absent), and decoding a frame whose `type` tag is not one of the
defined ones yields a parse error rather than a silently dropped or
defaulted value. -/
theorem codec_roundtrip_stable :
    (∀ m : ClientMessage, decodeClient (encodeClient m) = Except.ok m) ∧
    (∀ m : ServerMessage, decodeServer (encodeServer m) = Except.ok m) ∧
    (∀ (fields : List (String × Json)) (tag : String),
      lookupA fields "type" = some (Json.str tag) → tag ∉ clientTags →
      decodeClient (Json.obj fields) =
        Except.error ("unknown variant " ++ tag)) ∧
    (∀ (fields : List (String × Json)) (tag : String),
      lookupA fields "type" = some (Json.str tag) → tag ∉ serverTags →
      decodeServer (Json.obj fields) =
        Except.error ("unknown variant " ++ tag)) :=
  ⟨decodeClient_encodeClient, decodeServer_encodeServer,
    decodeClient_unknown_tag, decodeServer_unknown_tag⟩

/-- Witness for `codec_roundtrip_stable` at concrete frames, including an
unknown `type` tag. -/
theorem codec_roundtrip_stable_witness :
    decodeClient (encodeClient (ClientMessage.JoinRoom "r1" none)) =
      Except.ok (ClientMessage.JoinRoom "r1" none) ∧
    decodeServer (encodeServer (ServerMessage.RoomJoined "r1" 123
        [{ user_id := 456, username := "bob" }])) =
      Except.ok (ServerMessage.RoomJoined "r1" 123
        [{ user_id := 456, username := "bob" }]) ∧
    decodeClient (Json.obj [("type", Json.str "bogus")]) =
      Except.error ("unknown variant " ++ "bogus") ∧
    decodeServer (Json.obj [("type", Json.str "bogus")]) =
      Except.error ("unknown variant " ++ "bogus") :=
  ⟨codec_roundtrip_stable.1 _, codec_roundtrip_stable.2.1 _,
    codec_roundtrip_stable.2.2.1 _ "bogus" rfl (by decide),
    codec_roundtrip_stable.2.2.2 _ "bogus" rfl (by decide)⟩

/-! ## Local registry (embedding of `src/signaling/src/room.rs`)

`AuthenticatedUser` comes from `auth.rs`; a `RoomParticipant`'s
`sender` channel is identified by its `connection_id` (one outbound channel
per stream), so a send through `participant.sender` is recorded as the pair
`(participant.connection_id, frame)`. -/

/-- `AuthenticatedUser` from `auth.rs` (`sub` normalized to a number). -/
structure AuthenticatedUser where
  user_id : Nat
  username : String
  deriving DecidableEq, Repr

/-- `RoomParticipant` from `room.rs`; the `sender` endpoint is identified by
`connection_id`. -/
structure RoomParticipant where
  user : AuthenticatedUser
  connection_id : Nat
  deriving DecidableEq, Repr

/-- A frame sent to the channel of the stream identified by the first
component (a `participant.sender.send(..)` call). -/
abbrev Send : Type := Nat × ServerMessage

/-- `Room` from `room.rs`: participants keyed by `user_id`. -/
structure Room where
  name : String
  participants : List (Nat × RoomParticipant)
  deriving DecidableEq, Repr

/-- `Room::new`. -/
def Room.mk_new (name : String) : Room := { name := name, participants := [] }

/-- `Room::add_participant`: refuse a duplicate `user_id`, else insert. -/
def Room.add_participant (room : Room) (participant : RoomParticipant) :
    Room × Bool :=
  let user_id := participant.user.user_id
  match lookupA room.participants user_id with
  | some _ => (room, false)
  | none =>
    ({ room with participants := room.participants ++ [(user_id, participant)] },
      true)

/-- `Room::remove_participant`. -/
def Room.remove_participant (room : Room) (user_id : Nat) :
    Room × Option RoomParticipant :=
  match lookupA room.participants user_id with
  | some participant =>
    ({ room with participants := eraseA room.participants user_id },
      some participant)
  | none => (room, none)

/-- `Room::get_participants_list`. -/
def Room.get_participants_list (room : Room) : List Participant :=
  room.participants.map (fun e =>
    { user_id := e.2.user.user_id, username := e.2.user.username })

/-- `Room::broadcast_to_others`: send to every participant except
`sender_id`. -/
def Room.broadcast_to_others (room : Room) (sender_id : Nat)
    (message : ServerMessage) : List Send :=
  room.participants.filterMap (fun e =>
    if e.1 ≠ sender_id then some (e.2.connection_id, message) else none)

/-- `Room::broadcast_to_all`: send to every participant. -/
def Room.broadcast_to_all (room : Room) (message : ServerMessage) :
    List Send :=
  room.participants.map (fun e => (e.2.connection_id, message))

/-- `Room::send_to_user`: point-to-point, silent no-op when absent. -/
def Room.send_to_user (room : Room) (user_id : Nat)
    (message : ServerMessage) : List Send :=
  match lookupA room.participants user_id with
  | some participant => [(participant.connection_id, message)]
  | none => []

/-- `Room::has_participant`. -/
def Room.has_participant (room : Room) (user_id : Nat) : Bool :=
  (lookupA room.participants user_id).isSome

/-- `Room::is_empty`. -/
def Room.isEmptyRoom (room : Room) : Bool := room.participants.isEmpty

/-- The per-node registry: `rooms: HashMap<String, Room>`. -/
abbrev Registry : Type := List (String × Room)

instance {ε α : Type} [DecidableEq ε] [DecidableEq α] :
    DecidableEq (Except ε α)
  | Except.ok a, Except.ok b =>
    if h : a = b then isTrue (by rw [h])
    else isFalse (by intro he; cases he; exact h rfl)
  | Except.ok _, Except.error _ => isFalse (by intro h; cases h)
  | Except.error _, Except.ok _ => isFalse (by intro h; cases h)
  | Except.error e, Except.error f =>
    if h : e = f then isTrue (by rw [h])
    else isFalse (by intro he; cases he; exact h rfl)

/-- Result of `LocalRoomManager::join_room`. -/
structure JoinOut where
  registry : Registry
  result : Except String (List Participant)
  sends : List Send
  deriving DecidableEq, Repr

/-- Result of `LocalRoomManager::leave_room`. -/
structure LeaveOut where
  registry : Registry
  result : Except String Unit
  sends : List Send
  deriving DecidableEq, Repr

/-- Result of `LocalRoomManager::remove_user_from_all_rooms`. -/
structure RemoveOut where
  registry : Registry
  sends : List Send
  deriving DecidableEq, Repr

/-- `LocalRoomManager::join_room`: `entry(..).or_insert_with(Room::new)`,
capture the existing participant list, try `add_participant`; on success
broadcast `user-joined` to the others, else return the domain error. -/
def join_room (rooms : Registry) (room_name : String)
    (participant : RoomParticipant) : JoinOut :=
  let room := (lookupA rooms room_name).getD (Room.mk_new room_name)
  let existing_participants := room.get_participants_list
  match room.add_participant participant with
  | (room', true) =>
    let user_joined_msg := ServerMessage.UserJoined room_name
      { user_id := participant.user.user_id,
        username := participant.user.username }
    { registry := setA rooms room_name room',
      result := Except.ok existing_participants,
      sends := room'.broadcast_to_others participant.user.user_id
        user_joined_msg }
  | (room', false) =>
    { registry := setA rooms room_name room',
      result := Except.error "User already in room",
      sends := [] }

/-- `LocalRoomManager::leave_room`: remove the participant, then broadcast
`user-left` to the room as it is after the removal, then delete the room if
it became empty. -/
def leave_room (rooms : Registry) (room_name : String) (user_id : Nat) :
    LeaveOut :=
  match lookupA rooms room_name with
  | none =>
    { registry := rooms, result := Except.error "Room not found", sends := [] }
  | some room =>
    match room.remove_participant user_id with
    | (_, none) =>
      { registry := rooms, result := Except.error "User not in room",
        sends := [] }
    | (room', some _) =>
      let user_left_msg := ServerMessage.UserLeft room_name user_id
      let sends := room'.broadcast_to_all user_left_msg
      { registry :=
          if room'.isEmptyRoom then eraseA rooms room_name
          else setA rooms room_name room',
        result := Except.ok (), sends := sends }

/-- Per-room step of `LocalRoomManager::remove_user_from_all_rooms`: if the
room holds `user_id` with this `connection_id`, remove it and broadcast
`user-left` to the remaining participants; the `Bool` records whether a
removal happened (used for the empty-room sweep). -/
def remove_from_room_step (user_id connection_id : Nat)
    (entry : String × Room) : (String × Room) × Bool × List Send :=
  match lookupA entry.2.participants user_id with
  | some participant =>
    if participant.connection_id = connection_id then
      ((entry.1, (entry.2.remove_participant user_id).1), true,
        ((entry.2.remove_participant user_id).1).broadcast_to_all
          (ServerMessage.UserLeft entry.1 user_id))
    else ((entry.1, entry.2), false, [])
  | none => ((entry.1, entry.2), false, [])

/-- `LocalRoomManager::remove_user_from_all_rooms`: apply the step to every
room, then remove the rooms that were emptied by a matched removal. -/
def remove_user_from_all_rooms (rooms : Registry)
    (user_id connection_id : Nat) : RemoveOut :=
  let stepped := rooms.map (remove_from_room_step user_id connection_id)
  { registry := stepped.filterMap (fun s =>
      if s.2.1 ∧ s.1.2.isEmptyRoom then none else some s.1),
    sends := stepped.flatMap (fun s => s.2.2) }

/-- `LocalRoomManager::user_in_room`. -/
def user_in_room (rooms : Registry) (room_name : String) (user_id : Nat) :
    Bool :=
  match lookupA rooms room_name with
  | some room => room.has_participant user_id
  | none => false

/-- `LocalRoomManager::get_room_participants`. -/
def get_room_participants (rooms : Registry) (room_name : String) :
    List Participant :=
  match lookupA rooms room_name with
  | some room => room.get_participants_list
  | none => []

/-- `LocalRoomManager::broadcast_to_room`. -/
def broadcast_to_room (rooms : Registry) (room_name : String)
    (sender_id : Nat) (message : ServerMessage) :
    List Send × Except String Unit :=
  match lookupA rooms room_name with
  | some room => (room.broadcast_to_others sender_id message, Except.ok ())
  | none => ([], Except.error "Room not found")

/-- `LocalRoomManager::send_to_user_in_room`. -/
def send_to_user_in_room (rooms : Registry) (room_name : String)
    (target_user_id : Nat) (message : ServerMessage) :
    List Send × Except String Unit :=
  match lookupA rooms room_name with
  | some room => (room.send_to_user target_user_id message, Except.ok ())
  | none => ([], Except.error "Room not found")

/-! ## Connection handler (embedding of `src/signaling/src/server.rs`) -/

/-- `send_message` queues one frame on the stream's own channel, identified
by its `connection_id`. -/
def send_self (connection_id : Nat) (msg : ServerMessage) : Send :=
  (connection_id, msg)

/-- `handle_client_message` from `server.rs`: dispatch one parsed inbound
frame for an authenticated user.  Returns the new registry, the frames sent
(in order), and the `Result<(), String>` of the function. -/
def handle_client_message (client_message : ClientMessage)
    (user : AuthenticatedUser) (connection_id : Nat) (rooms : Registry) :
    Registry × List Send × Except String Unit :=
  match client_message with
  | ClientMessage.Auth _ =>
    (rooms, [send_self connection_id
      (ServerMessage.mkError "Authentication already completed")],
      Except.ok ())
  | ClientMessage.JoinRoom room_name _password =>
    let participant : RoomParticipant :=
      { user := user, connection_id := connection_id }
    let out := join_room rooms room_name participant
    match out.result with
    | Except.ok existing_participants =>
      (out.registry, out.sends ++ [send_self connection_id
        (ServerMessage.RoomJoined room_name user.user_id
          existing_participants)], Except.ok ())
    | Except.error e =>
      (out.registry, out.sends ++ [send_self connection_id
        (ServerMessage.mkError ("Failed to join room: " ++ e))],
        Except.ok ())
  | ClientMessage.LeaveRoom room_name =>
    let out := leave_room rooms room_name user.user_id
    match out.result with
    | Except.ok _ =>
      (out.registry, out.sends ++ [send_self connection_id
        (ServerMessage.RoomLeft room_name user.user_id)], Except.ok ())
    | Except.error e =>
      (out.registry, out.sends ++ [send_self connection_id
        (ServerMessage.mkError ("Failed to leave room: " ++ e))],
        Except.ok ())
  | ClientMessage.Offer room_name sdp target_user_id =>
    if ¬ user_in_room rooms room_name user.user_id then
      (rooms, [send_self connection_id
        (ServerMessage.mkError "You are not in this room")], Except.ok ())
    else
      let offer_msg := ServerMessage.Offer room_name user.user_id sdp
      match target_user_id with
      | some target_id =>
        let sent := send_to_user_in_room rooms room_name target_id offer_msg
        match sent.2 with
        | Except.ok _ => (rooms, sent.1, Except.ok ())
        | Except.error e =>
          (rooms, sent.1, Except.error ("Failed to send offer: " ++ e))
      | none =>
        let sent := broadcast_to_room rooms room_name user.user_id offer_msg
        match sent.2 with
        | Except.ok _ => (rooms, sent.1, Except.ok ())
        | Except.error e =>
          (rooms, sent.1, Except.error ("Failed to broadcast offer: " ++ e))
  | ClientMessage.Answer room_name sdp target_user_id =>
    if ¬ user_in_room rooms room_name user.user_id then
      (rooms, [send_self connection_id
        (ServerMessage.mkError "You are not in this room")], Except.ok ())
    else
      let answer_msg := ServerMessage.Answer room_name user.user_id sdp
      let sent := send_to_user_in_room rooms room_name target_user_id
        answer_msg
      match sent.2 with
      | Except.ok _ => (rooms, sent.1, Except.ok ())
      | Except.error e =>
        (rooms, sent.1, Except.error ("Failed to send answer: " ++ e))
  | ClientMessage.IceCandidate room_name candidate sdp_mid sdp_mline_index
      target_user_id =>
    if ¬ user_in_room rooms room_name user.user_id then
      (rooms, [send_self connection_id
        (ServerMessage.mkError "You are not in this room")], Except.ok ())
    else
      let ice_msg := ServerMessage.IceCandidate room_name user.user_id
        candidate sdp_mid sdp_mline_index
      match target_user_id with
      | some target_id =>
        let sent := send_to_user_in_room rooms room_name target_id ice_msg
        match sent.2 with
        | Except.ok _ => (rooms, sent.1, Except.ok ())
        | Except.error e =>
          (rooms, sent.1,
            Except.error ("Failed to send ICE candidate: " ++ e))
      | none =>
        let sent := broadcast_to_room rooms room_name user.user_id ice_msg
        match sent.2 with
        | Except.ok _ => (rooms, sent.1, Except.ok ())
        | Except.error e =>
          (rooms, sent.1,
            Except.error ("Failed to broadcast ICE candidate: " ++ e))

/-- The incoming-loop wrapper of `handle_connection` around
`handle_client_message`: a returned `Err` is turned into one more error
frame on the stream's own channel. -/
def process_text_frame (client_message : ClientMessage)
    (user : AuthenticatedUser) (connection_id : Nat) (rooms : Registry) :
    Registry × List Send :=
  let out := handle_client_message client_message user connection_id rooms
  match out.2.2 with
  | Except.ok _ => (out.1, out.2.1)
  | Except.error e =>
    (out.1, out.2.1 ++ [send_self connection_id
      (ServerMessage.mkError ("Message handling error: " ++ e))])

/-- `authenticate_connection` from `server.rs` on the first text frame
(already parsed as a JSON tree): try `ClientMessage`; an `auth` frame goes
to the validator, any other parsed frame is refused; on a `ClientMessage`
parse failure, fall back to reading a string `token` field from the
generic JSON value and validating that. -/
def authenticate_connection (frame : Json)
    (validate : String → Except String AuthenticatedUser) :
    Except String AuthenticatedUser :=
  match decodeClient frame with
  | Except.ok (ClientMessage.Auth token) => validate token
  | Except.ok _ =>
    Except.error "Expected Auth message, got other message type"
  | Except.error _ =>
    match jsonGet frame "token" with
    | some (Json.str token) => validate token
    | _ => Except.error "No token field found in authentication message"

/-- The authentication phase of `handle_connection`: on validator success
send the `authenticated` frame and enter the serving state with the user;
on any failure send exactly one error frame and return (the connection is
closed, never authenticated). -/
def connection_auth_phase (frame : Json)
    (validate : String → Except String AuthenticatedUser) :
    List ServerMessage × Option AuthenticatedUser :=
  match authenticate_connection frame validate with
  | Except.error e =>
    ([ServerMessage.mkError ("Authentication failed: " ++ e)], none)
  | Except.ok user =>
    ([ServerMessage.Authenticated user.user_id user.username], some user)

/-! ## Cluster manager (embedding of `src/signaling/src/cluster.rs`) -/

/-- `ConnectionInfo` from `cluster.rs` (timestamps and UUIDs as numbers). -/
structure ConnectionInfo where
  user_id : Nat
  username : String
  room_id : String
  connected_at : Nat
  connection_id : Nat
  deriving DecidableEq, Repr

/-- `ClusterMessage` from `cluster.rs`. -/
inductive ClusterMessage where
  | UserJoined (room_id : String) (user_id : Nat) (username : String)
      (target_server : Option String)
  | UserLeft (room_id : String) (user_id : Nat)
      (target_server : Option String)
  | WebRTCSignal (room_id : String) (from_user : Nat) (to_user : Nat)
      (signal_type : String) (signal_data : String)
  | ServerHeartbeat (node_id : String) (timestamp : Nat)
      (connection_count : Nat)
  | ParticipantsRequest (room_id : String) (requesting_server : String)
  | ParticipantsResponse (room_id : String)
      (participants : List Participant) (target_server : String)
  deriving DecidableEq, Repr

/-- `ClusterRoomManager::broadcast_to_local_room_participants`: fan out to
every locally connected user (not filtered by room). -/
def broadcast_to_local_room_participants (message : ServerMessage)
    (local_connections : List (Nat × RoomParticipant)) : List Send :=
  local_connections.map (fun e => (e.2.connection_id, message))

/-- `ClusterRoomManager::handle_cluster_message`.  In the `WebRTCSignal`
branch the source substitutes the literal room name `"cluster"` for the
frame's `room_name` (its own `// TODO: pass actual room name` comment);
the embedding reproduces that literally. -/
def handle_cluster_message (message : ClusterMessage)
    (local_connections : List (Nat × RoomParticipant)) (node_id : String) :
    List Send :=
  match message with
  | ClusterMessage.UserJoined room_id user_id username target_server =>
    let skip : Bool := match target_server with
      | some target => target != node_id
      | none => false
    if skip then []
    else broadcast_to_local_room_participants
      (ServerMessage.UserJoined room_id
        { user_id := user_id, username := username }) local_connections
  | ClusterMessage.UserLeft room_id user_id target_server =>
    let skip : Bool := match target_server with
      | some target => target != node_id
      | none => false
    if skip then []
    else broadcast_to_local_room_participants
      (ServerMessage.UserLeft room_id user_id) local_connections
  | ClusterMessage.WebRTCSignal _room_id from_user to_user signal_type
      signal_data =>
    match lookupA local_connections to_user with
    | some participant =>
      if signal_type = "offer" then
        [(participant.connection_id,
          ServerMessage.Offer "cluster" from_user signal_data)]
      else if signal_type = "answer" then
        [(participant.connection_id,
          ServerMessage.Answer "cluster" from_user signal_data)]
      else if signal_type = "ice-candidate" then
        [(participant.connection_id,
          ServerMessage.IceCandidate "cluster" from_user signal_data
            none none)]
      else []
    | none => []
  | _ => []

/-- The shared store: the two hash families the cluster registry writes
(`rooms:<room>:participants` and `servers:<node>:connections`), keyed by
their literal Redis key strings. -/
structure RedisState where
  roomParticipants : List (String × List (Nat × String))
  serverConnections : List (String × List (Nat × ConnectionInfo))
  deriving DecidableEq, Repr

/-- `HSET hash field value` (creates the hash when absent). -/
def hsetA {α : Type} (outer : List (String × List (Nat × α)))
    (key : String) (field : Nat) (v : α) : List (String × List (Nat × α)) :=
  setA outer key (setA ((lookupA outer key).getD []) field v)

/-- `HDEL hash field` (no-op when the hash is absent). -/
def hdelA {α : Type} (outer : List (String × List (Nat × α)))
    (key : String) (field : Nat) : List (String × List (Nat × α)) :=
  match lookupA outer key with
  | some inner => setA outer key (eraseA inner field)
  | none => outer

/-- `HGET hash field`. -/
def hgetA {α : Type} (outer : List (String × List (Nat × α)))
    (key : String) (field : Nat) : Option α :=
  (lookupA outer key).bind (fun inner => lookupA inner field)

/-- `ClusterRoomManager::register_user_in_redis`: write the room-membership
entry and the `ConnectionInfo` mirror.  `fresh_uuid` embeds the
`Uuid::new_v4()` call at the `connection_id` field — a fresh random
identifier, not the connection id of the stream being registered (the
source marks it `// This should match the actual connection_id`). -/
def register_user_in_redis (st : RedisState) (node_id room_id : String)
    (user_id : Nat) (username : String) (now : Nat) (fresh_uuid : Nat) :
    RedisState :=
  let room_key := "rooms:" ++ room_id ++ ":participants"
  let server_key := "servers:" ++ node_id ++ ":connections"
  let connection_info : ConnectionInfo :=
    { user_id := user_id, username := username, room_id := room_id,
      connected_at := now, connection_id := fresh_uuid }
  { st with
    roomParticipants := hsetA st.roomParticipants room_key user_id node_id,
    serverConnections :=
      hsetA st.serverConnections server_key user_id connection_info }

/-- The Redis-side part of `ClusterRoomManager::remove_user_from_all_rooms`
(cluster mode): read this node's stored `ConnectionInfo` for the user and,
only if its `connection_id` equals the closing stream's, delete the room
membership and connection entries and publish `UserLeft`. -/
def cluster_remove_user_from_all_rooms (st : RedisState) (node_id : String)
    (user_id : Nat) (connection_id : Nat) :
    RedisState × List ClusterMessage :=
  let server_key := "servers:" ++ node_id ++ ":connections"
  match hgetA st.serverConnections server_key user_id with
  | some connection_info =>
    if connection_info.connection_id = connection_id then
      let room_key := "rooms:" ++ connection_info.room_id ++ ":participants"
      ({ st with
          roomParticipants := hdelA st.roomParticipants room_key user_id,
          serverConnections :=
            hdelA st.serverConnections server_key user_id },
        [ClusterMessage.UserLeft connection_info.room_id user_id none])
    else (st, [])
  | none => (st, [])

/-! ## Registry operations and observations used by the invariant claims -/

/-- The mutating local-registry operations reachable from the handler. -/
inductive RegistryOp where
  | join (room_name : String) (participant : RoomParticipant)
  | leave (room_name : String) (user_id : Nat)
  | removeAll (user_id : Nat) (connection_id : Nat)
  deriving DecidableEq, Repr

/-- The registry after one operation (results and sends projected away). -/
def apply_op (rooms : Registry) : RegistryOp → Registry
  | RegistryOp.join room_name participant =>
    (join_room rooms room_name participant).registry
  | RegistryOp.leave room_name user_id =>
    (leave_room rooms room_name user_id).registry
  | RegistryOp.removeAll user_id connection_id =>
    (remove_user_from_all_rooms rooms user_id connection_id).registry

/-- The registry reached from the initial empty mapping by a sequence of
operations. -/
def run_ops (ops : List RegistryOp) : Registry :=
  ops.foldl apply_op []

/-- No orphan empty rooms: every room present in the mapping has a
non-empty participant set. -/
def no_orphan_rooms (rooms : Registry) : Prop :=
  ∀ e ∈ rooms, e.2.participants ≠ []

/-- The stored participant entry of user `v` in room `n` (`None` when the
room or the entry is absent). -/
def room_entry (rooms : Registry) (n : String) (v : Nat) :
    Option RoomParticipant :=
  (lookupA rooms n).bind (fun room => lookupA room.participants v)

/-- Well-formedness inherited from `HashMap`: room names are unique keys,
and within each room the participant `user_id` keys are unique. -/
def registry_wf (rooms : Registry) : Prop :=
  (rooms.map Prod.fst).Nodup ∧
    ∀ e ∈ rooms, (e.2.participants.map Prod.fst).Nodup

/-! ## Theorems: local registry join contract -/

theorem lookupA_eq_none_iff {κ α : Type} [DecidableEq κ]
    (l : List (κ × α)) (k : κ) :
    lookupA l k = none ↔ k ∉ l.map Prod.fst := by
  induction l with
  | nil => simp [lookupA]
  | cons hd tl ih =>
    obtain ⟨k₀, v₀⟩ := hd
    by_cases hk : k₀ = k
    · subst hk
      simp [lookupA]
    · have hk' : k ≠ k₀ := Ne.symm hk
      simp [lookupA, hk, hk', ih]

theorem filterMap_others_all (l : List (Nat × RoomParticipant))
    (uid : Nat) (msg : ServerMessage) (h : lookupA l uid = none) :
    l.filterMap (fun e =>
        if e.1 ≠ uid then some (e.2.connection_id, msg) else none) =
      l.map (fun e => (e.2.connection_id, msg)) := by
  induction l with
  | nil => rfl
  | cons hd tl ih =>
    obtain ⟨k₀, v₀⟩ := hd
    simp only [lookupA] at h
    by_cases hk : k₀ = uid
    · simp [hk] at h
    · rw [if_neg hk] at h
      rw [List.filterMap_cons, List.map_cons]
      split
      · next heq => simp [hk] at heq
      · next b heq =>
        simp [hk] at heq
        rw [ih h, ← heq]

theorem broadcast_filter_fresh (l : List (Nat × RoomParticipant))
    (uid : Nat) (p : RoomParticipant) (msg : ServerMessage)
    (h : lookupA l uid = none) :
    (l ++ [(uid, p)]).filterMap (fun e =>
        if e.1 ≠ uid then some (e.2.connection_id, msg) else none) =
      l.map (fun e => (e.2.connection_id, msg)) := by
  rw [List.filterMap_append, filterMap_others_all l uid msg h]
  simp

/-- C1: Local-registry join contract: when a participant with `p`'s
`user_id` is already in room `r`, `join_room` returns the domain error and
leaves the registry unchanged (and sends nothing); otherwise it creates
`r` if absent, appends `p`, returns exactly the participants present
before the insert (which do not include `p`), and sends the `user-joined`
frame to exactly the channels of those prior participants — every member
of `r` other than `p` and no one else. -/
theorem join_room_contract (rooms : Registry) (room_name : String)
    (participant : RoomParticipant) :
    (user_in_room rooms room_name participant.user.user_id = true →
      join_room rooms room_name participant =
        { registry := rooms, result := Except.error "User already in room",
          sends := [] }) ∧
    (user_in_room rooms room_name participant.user.user_id = false →
      (join_room rooms room_name participant).result =
        Except.ok (get_room_participants rooms room_name) ∧
      lookupA (join_room rooms room_name participant).registry room_name =
        some
          { name :=
              ((lookupA rooms room_name).getD (Room.mk_new room_name)).name,
            participants :=
              ((lookupA rooms room_name).getD
                  (Room.mk_new room_name)).participants ++
                [(participant.user.user_id, participant)] } ∧
      (∀ n, n ≠ room_name →
        lookupA (join_room rooms room_name participant).registry n =
          lookupA rooms n) ∧
      (join_room rooms room_name participant).sends =
        ((lookupA rooms room_name).getD
            (Room.mk_new room_name)).participants.map (fun e =>
          (e.2.connection_id, ServerMessage.UserJoined room_name
            { user_id := participant.user.user_id,
              username := participant.user.username }))) := by
  constructor
  · intro h
    unfold user_in_room at h
    cases hlk : lookupA rooms room_name with
    | none => rw [hlk] at h; simp at h
    | some room =>
      rw [hlk] at h
      simp only [Room.has_participant] at h
      cases hp : lookupA room.participants participant.user.user_id with
      | none => rw [hp] at h; simp at h
      | some q =>
        simp only [join_room, hlk, Option.getD_some, Room.add_participant, hp]
        have hset : setA rooms room_name room = rooms :=
          setA_lookup_self rooms room_name room hlk
        simp [hset]
  · intro h
    have hnone : lookupA ((lookupA rooms room_name).getD
        (Room.mk_new room_name)).participants participant.user.user_id =
        none := by
      unfold user_in_room at h
      cases hlk : lookupA rooms room_name with
      | none => simp [hlk, Room.mk_new, lookupA]
      | some room =>
        rw [hlk] at h
        simp only [Room.has_participant] at h
        simp only [Option.getD_some]
        exact Option.not_isSome_iff_eq_none.mp (by simp [h])
    refine ⟨?_, ?_, ?_, ?_⟩
    · simp only [join_room, Room.add_participant, hnone]
      cases hlk : lookupA rooms room_name with
      | none => simp [hlk, get_room_participants, Room.mk_new,
          Room.get_participants_list]
      | some room => simp [hlk, get_room_participants]
    · simp only [join_room, Room.add_participant, hnone]
      exact lookupA_setA_self _ _ _
    · intro n hn
      simp only [join_room, Room.add_participant, hnone]
      exact lookupA_setA_ne _ _ _ _ hn
    · simp only [join_room, Room.add_participant, hnone,
        Room.broadcast_to_others]
      exact broadcast_filter_fresh _ _ _ _ hnone

/-- Witness for `join_room_contract`: a concrete registry where user 2
joins a room already holding user 1, and a duplicate join by user 1 is
refused. -/
theorem join_room_contract_witness :
    (join_room [("r1", { name := "r1", participants :=
        [(1, { user := { user_id := 1, username := "alice" },
               connection_id := 10 })] })] "r1"
      { user := { user_id := 1, username := "alice" },
        connection_id := 11 } =
      { registry := [("r1", { name := "r1", participants :=
          [(1, { user := { user_id := 1, username := "alice" },
                 connection_id := 10 })] })],
        result := Except.error "User already in room", sends := [] }) ∧
    (join_room [("r1", { name := "r1", participants :=
        [(1, { user := { user_id := 1, username := "alice" },
               connection_id := 10 })] })] "r1"
      { user := { user_id := 2, username := "bob" },
        connection_id := 20 }).result =
      Except.ok [{ user_id := 1, username := "alice" }] ∧
    (join_room [("r1", { name := "r1", participants :=
        [(1, { user := { user_id := 1, username := "alice" },
               connection_id := 10 })] })] "r1"
      { user := { user_id := 2, username := "bob" },
        connection_id := 20 }).sends =
      [(10, ServerMessage.UserJoined "r1"
        { user_id := 2, username := "bob" })] := by
  refine ⟨?_, ?_, ?_⟩
  · exact (join_room_contract
      [("r1", { name := "r1", participants :=
        [(1, { user := { user_id := 1, username := "alice" },
               connection_id := 10 })] })] "r1"
      { user := { user_id := 1, username := "alice" },
        connection_id := 11 }).1 (by decide)
  · have h := ((join_room_contract
      [("r1", { name := "r1", participants :=
        [(1, { user := { user_id := 1, username := "alice" },
               connection_id := 10 })] })] "r1"
      { user := { user_id := 2, username := "bob" },
        connection_id := 20 }).2 (by decide)).1
    simpa using h
  · have h := ((join_room_contract
      [("r1", { name := "r1", participants :=
        [(1, { user := { user_id := 1, username := "alice" },
               connection_id := 10 })] })] "r1"
      { user := { user_id := 2, username := "bob" },
        connection_id := 20 }).2 (by decide)).2.2.2
    simpa using h

/-- C10: the `join-room` password field is inert: two `join-room` frames
that differ only in the password field produce the same frames and the
same resulting registry — the handler never reads the password. -/
theorem join_room_password_inert (rooms : Registry)
    (user : AuthenticatedUser) (connection_id : Nat) (room_name : String)
    (p1 p2 : Option String) :
    process_text_frame (ClientMessage.JoinRoom room_name p1) user
        connection_id rooms =
      process_text_frame (ClientMessage.JoinRoom room_name p2) user
        connection_id rooms := rfl

/-- C6: non-member signaling is rejected without side effects: an `offer`,
`answer` or `ice-candidate` frame naming a room the sender is not in
produces exactly one error frame on the sender's own channel, delivers
nothing to anyone else, and leaves the registry unchanged. -/
theorem non_member_signaling_rejected (rooms : Registry)
    (user : AuthenticatedUser) (connection_id : Nat) (room_name : String)
    (h : user_in_room rooms room_name user.user_id = false) :
    (∀ sdp target_user_id,
      process_text_frame (ClientMessage.Offer room_name sdp target_user_id)
          user connection_id rooms =
        (rooms, [(connection_id,
          ServerMessage.mkError "You are not in this room")])) ∧
    (∀ sdp target_user_id,
      process_text_frame (ClientMessage.Answer room_name sdp target_user_id)
          user connection_id rooms =
        (rooms, [(connection_id,
          ServerMessage.mkError "You are not in this room")])) ∧
    (∀ candidate sdp_mid sdp_mline_index target_user_id,
      process_text_frame (ClientMessage.IceCandidate room_name candidate
          sdp_mid sdp_mline_index target_user_id) user connection_id rooms =
        (rooms, [(connection_id,
          ServerMessage.mkError "You are not in this room")])) := by
  refine ⟨fun sdp target => ?_, fun sdp target => ?_,
    fun cand mid mline target => ?_⟩ <;>
    simp [process_text_frame, handle_client_message, h, send_self]

/-- Witness for `non_member_signaling_rejected`: user 1 signals into a
room it has not joined. -/
theorem non_member_signaling_rejected_witness :
    process_text_frame (ClientMessage.Offer "r9" "SDP" (some 2))
        { user_id := 1, username := "alice" } 11
        [("r9", { name := "r9", participants :=
          [(2, { user := { user_id := 2, username := "bob" },
                 connection_id := 20 })] })] =
      ([("r9", { name := "r9", participants :=
          [(2, { user := { user_id := 2, username := "bob" },
                 connection_id := 20 })] })],
        [(11, ServerMessage.mkError "You are not in this room")]) :=
  (non_member_signaling_rejected
    [("r9", { name := "r9", participants :=
      [(2, { user := { user_id := 2, username := "bob" },
             connection_id := 20 })] })]
    { user_id := 1, username := "alice" } 11 "r9" (by decide)).1 "SDP" (some 2)

/-- C5 counterexample: in a room holding alice (user 1, channel 10) and
bob (user 2, channel 20), a successful `leave_room` by user 1 broadcasts
`user-left` only to channel 20 — the leaving user's channel 10 receives
nothing, because `remove_participant` runs before `broadcast_to_all`. -/
theorem leave_room_broadcast_counterexample :
    (leave_room [("r1", { name := "r1", participants :=
        [(1, { user := { user_id := 1, username := "alice" },
               connection_id := 10 }),
         (2, { user := { user_id := 2, username := "bob" },
               connection_id := 20 })] })] "r1" 1).result = Except.ok () ∧
    (leave_room [("r1", { name := "r1", participants :=
        [(1, { user := { user_id := 1, username := "alice" },
               connection_id := 10 }),
         (2, { user := { user_id := 2, username := "bob" },
               connection_id := 20 })] })] "r1" 1).sends =
      [(20, ServerMessage.UserLeft "r1" 1)] ∧
    ¬ (10 ∈ (leave_room [("r1", { name := "r1", participants :=
        [(1, { user := { user_id := 1, username := "alice" },
               connection_id := 10 }),
         (2, { user := { user_id := 2, username := "bob" },
               connection_id := 20 })] })] "r1" 1).sends.map Prod.fst) := by
  refine ⟨rfl, rfl, by decide⟩

/-- C5 (amended): a successful `leave_room(r, u)` removes `u`'s entry and
then broadcasts the `user-left` frame to exactly the remaining
participants of `r`; the leaving user's entry is no longer in the room
when the broadcast fires, so it is not among the recipients.  The room is
deleted when the removal empties it. -/
theorem leave_room_broadcast (rooms : Registry) (room_name : String)
    (user_id : Nat) (room : Room) (p : RoomParticipant)
    (hroom : lookupA rooms room_name = some room)
    (hp : lookupA room.participants user_id = some p) :
    (leave_room rooms room_name user_id).result = Except.ok () ∧
    (leave_room rooms room_name user_id).sends =
      (eraseA room.participants user_id).map (fun e =>
        (e.2.connection_id, ServerMessage.UserLeft room_name user_id)) ∧
    (leave_room rooms room_name user_id).registry =
      (if (eraseA room.participants user_id).isEmpty then
        eraseA rooms room_name
      else setA rooms room_name
        { name := room.name,
          participants := eraseA room.participants user_id }) ∧
    ((room.participants.map Prod.fst).Nodup →
      ∀ msg, (p.connection_id, msg) ∈
          (leave_room rooms room_name user_id).sends →
        ∃ e, e ∈ eraseA room.participants user_id ∧
          e.2.connection_id = p.connection_id) := by
  have hdef : leave_room rooms room_name user_id =
      { registry :=
          if (eraseA room.participants user_id).isEmpty then
            eraseA rooms room_name
          else setA rooms room_name
            { name := room.name,
              participants := eraseA room.participants user_id },
        result := Except.ok (),
        sends := (eraseA room.participants user_id).map (fun e =>
          (e.2.connection_id, ServerMessage.UserLeft room_name user_id)) } := by
    simp only [leave_room, hroom, Room.remove_participant, hp,
      Room.broadcast_to_all, Room.isEmptyRoom]
  refine ⟨by rw [hdef], by rw [hdef], by rw [hdef], ?_⟩
  intro _ msg hmem
  rw [hdef] at hmem
  simp only [List.mem_map] at hmem
  obtain ⟨e, he, heq⟩ := hmem
  exact ⟨e, he, congrArg Prod.fst heq⟩

/-- Witness for `leave_room_broadcast` at the two-user room of the
counterexample. -/
theorem leave_room_broadcast_witness :
    (leave_room [("r1", { name := "r1", participants :=
        [(1, { user := { user_id := 1, username := "alice" },
               connection_id := 10 }),
         (2, { user := { user_id := 2, username := "bob" },
               connection_id := 20 })] })] "r1" 2).result = Except.ok () ∧
    (leave_room [("r1", { name := "r1", participants :=
        [(1, { user := { user_id := 1, username := "alice" },
               connection_id := 10 }),
         (2, { user := { user_id := 2, username := "bob" },
               connection_id := 20 })] })] "r1" 2).sends =
      [(10, ServerMessage.UserLeft "r1" 2)] := by
  have h := leave_room_broadcast
    [("r1", { name := "r1", participants :=
      [(1, { user := { user_id := 1, username := "alice" },
             connection_id := 10 }),
       (2, { user := { user_id := 2, username := "bob" },
             connection_id := 20 })] })] "r1" 2
    { name := "r1", participants :=
      [(1, { user := { user_id := 1, username := "alice" },
             connection_id := 10 }),
       (2, { user := { user_id := 2, username := "bob" },
             connection_id := 20 })] }
    { user := { user_id := 2, username := "bob" }, connection_id := 20 }
    rfl rfl
  exact ⟨h.1, by rw [h.2.1]; rfl⟩

/-- C3 counterexample: a first frame whose `type` tag is `"bogus"` (not
`"auth"`) still reaches the authenticated state: the `ClientMessage` parse
fails on the unknown tag, and the generic-JSON fallback of
`authenticate_connection` reads the `token` field and validates it. -/
theorem first_frame_auth_counterexample :
    lookupA [("type", Json.str "bogus"), ("token", Json.str "good")]
        "type" = some (Json.str "bogus") ∧
    "bogus" ≠ "auth" ∧
    connection_auth_phase
        (Json.obj [("type", Json.str "bogus"), ("token", Json.str "good")])
        (fun t => if t = "good" then
          Except.ok { user_id := 1, username := "alice" }
        else Except.error "Invalid token") =
      ([ServerMessage.Authenticated 1 "alice"],
        some { user_id := 1, username := "alice" }) :=
  ⟨rfl, by decide, rfl⟩

/-- C3 (amended): if the first inbound frame neither is an `auth` frame
whose token the validator accepts, nor — failing to parse as a client
message — carries a string `token` field whose value the validator
accepts, then the handler sends exactly one error frame and the
connection never reaches the authenticated state. -/
theorem first_frame_auth_contract (frame : Json)
    (validate : String → Except String AuthenticatedUser)
    (hauth : ∀ token u,
      decodeClient frame = Except.ok (ClientMessage.Auth token) →
      validate token ≠ Except.ok u)
    (hfall : ∀ token u, jsonGet frame "token" = some (Json.str token) →
      validate token ≠ Except.ok u) :
    ∃ e, connection_auth_phase frame validate =
      ([ServerMessage.mkError ("Authentication failed: " ++ e)], none) := by
  unfold connection_auth_phase authenticate_connection
  cases hdec : decodeClient frame with
  | ok m =>
    cases m with
    | Auth token =>
      cases hv : validate token with
      | ok u => exact absurd hv (hauth token u hdec)
      | error e => exact ⟨e, by simp [hv]⟩
    | JoinRoom room_name password =>
      exact ⟨"Expected Auth message, got other message type", rfl⟩
    | LeaveRoom room_name =>
      exact ⟨"Expected Auth message, got other message type", rfl⟩
    | Offer room_name sdp target =>
      exact ⟨"Expected Auth message, got other message type", rfl⟩
    | Answer room_name sdp target =>
      exact ⟨"Expected Auth message, got other message type", rfl⟩
    | IceCandidate room_name candidate sdp_mid sdp_mline_index target =>
      exact ⟨"Expected Auth message, got other message type", rfl⟩
  | error e0 =>
    cases htok : jsonGet frame "token" with
    | none =>
      exact ⟨"No token field found in authentication message", rfl⟩
    | some j =>
      cases j with
      | str token =>
        cases hv : validate token with
        | ok u => exact absurd hv (hfall token u htok)
        | error e => exact ⟨e, by simp [hv]⟩
      | null =>
        exact ⟨"No token field found in authentication message", rfl⟩
      | bool b =>
        exact ⟨"No token field found in authentication message", rfl⟩
      | num n =>
        exact ⟨"No token field found in authentication message", rfl⟩
      | arr elems =>
        exact ⟨"No token field found in authentication message", rfl⟩
      | obj fields =>
        exact ⟨"No token field found in authentication message", rfl⟩

/-- Witness for `first_frame_auth_contract`: a `join-room` first frame
against a validator that accepts nothing. -/
theorem first_frame_auth_contract_witness :
    ∃ e, connection_auth_phase
        (Json.obj [("type", Json.str "join-room"),
          ("roomName", Json.str "r1")])
        (fun _ => Except.error "Invalid token") =
      ([ServerMessage.mkError ("Authentication failed: " ++ e)], none) :=
  first_frame_auth_contract _ _
    (fun token u _ hv => by simp at hv)
    (fun token u _ hv => by simp at hv)

theorem mem_setA {κ α : Type} [DecidableEq κ] {l : List (κ × α)} {k : κ}
    {v : α} {e : κ × α} (he : e ∈ setA l k v) : e ∈ l ∨ e = (k, v) := by
  induction l with
  | nil =>
    simp only [setA, List.mem_singleton] at he
    exact Or.inr he
  | cons hd tl ih =>
    obtain ⟨k₀, v₀⟩ := hd
    simp only [setA] at he
    by_cases hk : k₀ = k
    · rw [if_pos hk] at he
      rw [List.mem_cons] at he
      rcases he with he | he
      · right
        rw [he, hk]
      · exact Or.inl (List.mem_cons_of_mem _ he)
    · rw [if_neg hk] at he
      rw [List.mem_cons] at he
      rcases he with he | he
      · left
        rw [he]
        exact List.mem_cons_self _ _
      · rcases ih he with h1 | h2
        · exact Or.inl (List.mem_cons_of_mem _ h1)
        · exact Or.inr h2

theorem mem_eraseA {κ α : Type} [DecidableEq κ] {l : List (κ × α)} {k : κ}
    {e : κ × α} (he : e ∈ eraseA l k) : e ∈ l := by
  induction l with
  | nil => simp [eraseA] at he
  | cons hd tl ih =>
    obtain ⟨k₀, v₀⟩ := hd
    by_cases hk : k₀ = k
    · simp only [eraseA, if_pos hk] at he
      exact List.mem_cons_of_mem _ he
    · simp only [eraseA, if_neg hk, List.mem_cons] at he
      rcases he with he | he
      · simp [he]
      · exact List.mem_cons_of_mem _ (ih he)

theorem lookupA_some_ne_nil {κ α : Type} [DecidableEq κ]
    {l : List (κ × α)} {k : κ} {v : α} (h : lookupA l k = some v) :
    l ≠ [] := by
  intro hnil
  subst hnil
  simp [lookupA] at h

theorem join_preserves_no_orphan (rooms : Registry) (room_name : String)
    (participant : RoomParticipant) (h : no_orphan_rooms rooms) :
    no_orphan_rooms (join_room rooms room_name participant).registry := by
  intro e he
  unfold join_room at he
  cases hlp : lookupA ((lookupA rooms room_name).getD
      (Room.mk_new room_name)).participants participant.user.user_id with
  | some q =>
    simp only [Room.add_participant, hlp] at he
    rcases mem_setA he with h1 | h2
    · exact h e h1
    · rw [h2]
      exact lookupA_some_ne_nil hlp
  | none =>
    simp only [Room.add_participant, hlp] at he
    rcases mem_setA he with h1 | h2
    · exact h e h1
    · rw [h2]
      simp

theorem leave_preserves_no_orphan (rooms : Registry) (room_name : String)
    (user_id : Nat) (h : no_orphan_rooms rooms) :
    no_orphan_rooms (leave_room rooms room_name user_id).registry := by
  intro e he
  unfold leave_room at he
  cases hlk : lookupA rooms room_name with
  | none =>
    simp only [hlk] at he
    exact h e he
  | some room =>
    simp only [hlk] at he
    cases hlp : lookupA room.participants user_id with
    | none =>
      simp only [Room.remove_participant, hlp] at he
      exact h e he
    | some q =>
      simp only [Room.remove_participant, hlp, Room.isEmptyRoom] at he
      by_cases hemp : (eraseA room.participants user_id).isEmpty
      · rw [if_pos hemp] at he
        exact h e (mem_eraseA he)
      · rw [if_neg hemp] at he
        rcases mem_setA he with h1 | h2
        · exact h e h1
        · rw [h2]
          simpa [List.isEmpty_iff] using hemp

theorem removeAll_preserves_no_orphan (rooms : Registry)
    (user_id connection_id : Nat) (h : no_orphan_rooms rooms) :
    no_orphan_rooms
      (remove_user_from_all_rooms rooms user_id connection_id).registry := by
  intro e he
  unfold remove_user_from_all_rooms at he
  simp only [List.mem_filterMap, List.mem_map] at he
  obtain ⟨s, ⟨ent, hent, hstep⟩, hkeep⟩ := he
  subst hstep
  unfold remove_from_room_step at hkeep
  cases hlp : lookupA ent.2.participants user_id with
  | none =>
    simp only [hlp] at hkeep
    split at hkeep
    · exact absurd hkeep (by simp)
    · cases Option.some.inj hkeep
      exact h ent hent
  | some q =>
    simp only [hlp] at hkeep
    by_cases hc : q.connection_id = connection_id
    · rw [if_pos hc] at hkeep
      split at hkeep
      · exact absurd hkeep (by simp)
      · next hcond =>
        cases Option.some.inj hkeep
        simp only [not_and] at hcond
        have := hcond (by simp)
        simpa [Room.isEmptyRoom, Room.remove_participant, hlp,
          List.isEmpty_iff] using this
    · rw [if_neg hc] at hkeep
      split at hkeep
      · exact absurd hkeep (by simp)
      · cases Option.some.inj hkeep
        exact h ent hent

theorem apply_op_preserves_no_orphan (rooms : Registry) (op : RegistryOp)
    (h : no_orphan_rooms rooms) : no_orphan_rooms (apply_op rooms op) := by
  cases op with
  | join room_name participant =>
    exact join_preserves_no_orphan rooms room_name participant h
  | leave room_name user_id =>
    exact leave_preserves_no_orphan rooms room_name user_id h
  | removeAll user_id connection_id =>
    exact removeAll_preserves_no_orphan rooms user_id connection_id h

/-- C7: no orphan empty rooms: after any sequence of local-registry
operations (`join_room`, `leave_room`, `remove_user_from_all_rooms`)
starting from the empty mapping, every room present in the registry has a
non-empty participant set — an operation that removes a room's last
participant deletes the room in the same operation. -/
theorem no_orphan_empty_rooms (ops : List RegistryOp) :
    no_orphan_rooms (run_ops ops) := by
  unfold run_ops
  have aux : ∀ (l : List RegistryOp) (rooms : Registry),
      no_orphan_rooms rooms → no_orphan_rooms (l.foldl apply_op rooms) := by
    intro l
    induction l with
    | nil => intro rooms h; exact h
    | cons op rest ih =>
      intro rooms h
      exact ih (apply_op rooms op) (apply_op_preserves_no_orphan rooms op h)
  exact aux ops [] (by intro e he; simp at he)

theorem step_fst (u c : Nat) (ent : String × Room) :
    (remove_from_room_step u c ent).1.1 = ent.1 := by
  unfold remove_from_room_step
  cases lookupA ent.2.participants u with
  | none => rfl
  | some q =>
    by_cases hc : q.connection_id = c <;> simp [hc]

theorem removeAll_keys_sub (rooms : Registry) (u c : Nat) {n : String}
    (hn : n ∈ ((remove_user_from_all_rooms rooms u c).registry).map
      Prod.fst) : n ∈ rooms.map Prod.fst := by
  simp only [remove_user_from_all_rooms, List.mem_map,
    List.mem_filterMap] at hn
  obtain ⟨e, ⟨s, ⟨ent, hent, hstep⟩, hkeep⟩, hfst⟩ := hn
  split at hkeep
  · exact absurd hkeep (by simp)
  · cases Option.some.inj hkeep
    rw [List.mem_map]
    refine ⟨ent, hent, ?_⟩
    rw [← hfst, ← hstep]
    exact (step_fst u c ent).symm

theorem eraseA_eq_nil {κ α : Type} [DecidableEq κ] {l : List (κ × α)}
    {k : κ} (h : eraseA l k = []) : l = [] ∨ ∃ v, l = [(k, v)] := by
  cases l with
  | nil => exact Or.inl rfl
  | cons hd tl =>
    obtain ⟨k₀, v₀⟩ := hd
    simp only [eraseA] at h
    by_cases hk : k₀ = k
    · rw [if_pos hk] at h
      right
      exact ⟨v₀, by rw [h, hk]⟩
    · rw [if_neg hk] at h
      simp at h

theorem room_entry_cons_self (n : String) (r : Room) (l : Registry)
    (x : Nat) : room_entry ((n, r) :: l) n x = lookupA r.participants x := by
  simp [room_entry, lookupA]

theorem room_entry_cons_ne (e : String × Room) (l : Registry) (n : String)
    (hne : e.1 ≠ n) (x : Nat) :
    room_entry (e :: l) n x = room_entry l n x := by
  obtain ⟨n₀, r₀⟩ := e
  simp only [room_entry, lookupA]
  rw [if_neg hne]

theorem removeAll_cons (u c : Nat) (hd : String × Room) (rest : Registry) :
    (remove_user_from_all_rooms (hd :: rest) u c).registry =
      (if (remove_from_room_step u c hd).2.1 ∧
          (remove_from_room_step u c hd).1.2.isEmptyRoom then
        (remove_user_from_all_rooms rest u c).registry
      else (remove_from_room_step u c hd).1 ::
        (remove_user_from_all_rooms rest u c).registry) := by
  by_cases h : ((remove_from_room_step u c hd).2.1 ∧
      (remove_from_room_step u c hd).1.2.isEmptyRoom : Prop)
  · obtain ⟨h1, h2⟩ := h
    simp [remove_user_from_all_rooms, List.filterMap_cons, h1, h2]
  · rw [if_neg h]
    simp only [remove_user_from_all_rooms, List.map_cons,
      List.filterMap_cons]
    rw [if_neg h]

/-- C4: cleanup matches both identities: `remove_user_from_all_rooms(u, c)`
removes exactly the room entries whose key is `u` and whose stored
`connection_id` is `c`; an entry for `u` with a different `connection_id`,
and every entry of any other user, is unchanged in every room. -/
theorem remove_user_matches_both (rooms : Registry) (u c : Nat)
    (hwf : registry_wf rooms) (n : String) (v : Nat) :
    room_entry (remove_user_from_all_rooms rooms u c).registry n v =
      (match room_entry rooms n u with
       | some p =>
         if v = u ∧ p.connection_id = c then none else room_entry rooms n v
       | none => room_entry rooms n v) := by
  induction rooms with
  | nil => rfl
  | cons hd rest ih =>
    obtain ⟨n₀, r₀⟩ := hd
    obtain ⟨hnd0, hrooms⟩ := hwf
    simp only [List.map_cons, List.nodup_cons] at hnd0
    have hwfrest : registry_wf rest :=
      ⟨hnd0.2, fun e he => hrooms e (List.mem_cons_of_mem _ he)⟩
    have hr0nd : (r₀.participants.map Prod.fst).Nodup :=
      hrooms (n₀, r₀) (List.mem_cons_self _ _)
    rw [removeAll_cons]
    by_cases hn : n = n₀
    · subst hn
      cases hlp : lookupA r₀.participants u with
      | none =>
        have hstep : remove_from_room_step u c (n, r₀) =
            ((n, r₀), false, []) := by
          unfold remove_from_room_step
          rw [hlp]
        rw [hstep]
        simp [room_entry_cons_self, hlp]
      | some p =>
        by_cases hc : p.connection_id = c
        · have hstep : remove_from_room_step u c (n, r₀) =
              ((n, (r₀.remove_participant u).1), true,
                ((r₀.remove_participant u).1).broadcast_to_all
                  (ServerMessage.UserLeft n u)) := by
            unfold remove_from_room_step
            simp [hlp, hc]
          have hpart : (r₀.remove_participant u).1.participants =
              eraseA r₀.participants u := by
            simp [Room.remove_participant, hlp]
          rw [hstep]
          by_cases hemp : (eraseA r₀.participants u).isEmpty
          · rw [if_pos ⟨rfl, by simp [Room.isEmptyRoom, hpart, hemp]⟩]
            have hno : lookupA
                (remove_user_from_all_rooms rest u c).registry n = none := by
              apply lookupA_not_mem
              intro hmem
              exact hnd0.1 (removeAll_keys_sub rest u c hmem)
            have hLHS : room_entry
                (remove_user_from_all_rooms rest u c).registry n v =
                none := by
              simp [room_entry, hno]
            rw [hLHS]
            simp only [room_entry_cons_self, hlp]
            by_cases hv : v = u
            · simp [hv, hc]
            · simp only [hv, false_and, if_neg, room_entry_cons_self]
              have herased : eraseA r₀.participants u = [] := by
                simpa [List.isEmpty_iff] using hemp
              rcases eraseA_eq_nil herased with hnil | ⟨x, hsing⟩
              · rw [hnil] at hlp
                simp [lookupA] at hlp
              · have hu_ne_v : ¬ u = v := fun h => hv h.symm
                simp [hsing, lookupA, hu_ne_v]
          · rw [if_neg (fun hcc =>
              hemp (by simpa [Room.isEmptyRoom, hpart] using hcc.2))]
            rw [room_entry_cons_self]
            rw [hpart]
            simp only [room_entry_cons_self, hlp]
            by_cases hv : v = u
            · rw [hv]
              simp [hc, lookupA_eraseA_self r₀.participants u hr0nd]
            · simp only [hv, false_and, if_neg, room_entry_cons_self]
              simp [lookupA_eraseA_ne r₀.participants u v hv]
        · have hstep : remove_from_room_step u c (n, r₀) =
              ((n, r₀), false, []) := by
            unfold remove_from_room_step
            simp [hlp, hc]
          rw [hstep]
          simp [room_entry_cons_self, hlp, hc]
    · have hn' : n₀ ≠ n := fun h => hn h.symm
      have hcons_ne : ∀ (l : Registry) (x : Nat),
          room_entry ((n₀, r₀) :: l) n x = room_entry l n x :=
        fun l x => room_entry_cons_ne (n₀, r₀) l n hn' x
      have hhead_ne : ∀ (l : Registry) (x : Nat),
          room_entry ((remove_from_room_step u c (n₀, r₀)).1 :: l) n x =
            room_entry l n x := by
        intro l x
        apply room_entry_cons_ne
        rw [step_fst u c (n₀, r₀)]
        exact hn'
      by_cases hcnd : ((remove_from_room_step u c (n₀, r₀)).2.1 ∧
          (remove_from_room_step u c (n₀, r₀)).1.2.isEmptyRoom : Prop)
      · rw [if_pos hcnd]
        rw [ih hwfrest]
        simp only [hcons_ne]
      · rw [if_neg hcnd]
        rw [hhead_ne]
        rw [ih hwfrest]
        simp only [hcons_ne]

/-- Witness for `remove_user_matches_both`: removing user 1 with
connection 5 deletes exactly the `("a", 1)` entry; user 2 in room `a` and
user 1's second connection (id 7) in room `b` survive. -/
theorem remove_user_matches_both_witness :
    room_entry (remove_user_from_all_rooms
      [("a", { name := "a", participants :=
        [(1, { user := { user_id := 1, username := "alice" },
               connection_id := 5 }),
         (2, { user := { user_id := 2, username := "bob" },
               connection_id := 6 })] }),
       ("b", { name := "b", participants :=
        [(1, { user := { user_id := 1, username := "alice" },
               connection_id := 7 })] })] 1 5).registry "a" 1 = none ∧
    room_entry (remove_user_from_all_rooms
      [("a", { name := "a", participants :=
        [(1, { user := { user_id := 1, username := "alice" },
               connection_id := 5 }),
         (2, { user := { user_id := 2, username := "bob" },
               connection_id := 6 })] }),
       ("b", { name := "b", participants :=
        [(1, { user := { user_id := 1, username := "alice" },
               connection_id := 7 })] })] 1 5).registry "a" 2 =
      some { user := { user_id := 2, username := "bob" },
             connection_id := 6 } ∧
    room_entry (remove_user_from_all_rooms
      [("a", { name := "a", participants :=
        [(1, { user := { user_id := 1, username := "alice" },
               connection_id := 5 }),
         (2, { user := { user_id := 2, username := "bob" },
               connection_id := 6 })] }),
       ("b", { name := "b", participants :=
        [(1, { user := { user_id := 1, username := "alice" },
               connection_id := 7 })] })] 1 5).registry "b" 1 =
      some { user := { user_id := 1, username := "alice" },
             connection_id := 7 } := by
  refine ⟨?_, ?_, ?_⟩
  · have h := remove_user_matches_both
      [("a", { name := "a", participants :=
        [(1, { user := { user_id := 1, username := "alice" },
               connection_id := 5 }),
         (2, { user := { user_id := 2, username := "bob" },
               connection_id := 6 })] }),
       ("b", { name := "b", participants :=
        [(1, { user := { user_id := 1, username := "alice" },
               connection_id := 7 })] })] 1 5 (by unfold registry_wf; exact ⟨by decide, by decide⟩) "a" 1
    simpa using h
  · have h := remove_user_matches_both
      [("a", { name := "a", participants :=
        [(1, { user := { user_id := 1, username := "alice" },
               connection_id := 5 }),
         (2, { user := { user_id := 2, username := "bob" },
               connection_id := 6 })] }),
       ("b", { name := "b", participants :=
        [(1, { user := { user_id := 1, username := "alice" },
               connection_id := 7 })] })] 1 5 (by unfold registry_wf; exact ⟨by decide, by decide⟩) "a" 2
    rw [h]
    rfl
  · have h := remove_user_matches_both
      [("a", { name := "a", participants :=
        [(1, { user := { user_id := 1, username := "alice" },
               connection_id := 5 }),
         (2, { user := { user_id := 2, username := "bob" },
               connection_id := 6 })] }),
       ("b", { name := "b", participants :=
        [(1, { user := { user_id := 1, username := "alice" },
               connection_id := 7 })] })] 1 5 (by unfold registry_wf; exact ⟨by decide, by decide⟩) "b" 1
    rw [h]
    rfl

/-- C8 (code observation): `handle_cluster_message` delivers a cluster
`WebRTCSignal` carrying `room_id = "r2"` to `to_user`'s local connection
as an `offer` frame whose `roomName` is the literal `"cluster"`, not the
signal's `room_id` (the source's `// TODO: pass actual room name`); when
`to_user` has no local connection the signal is dropped. -/
theorem cluster_signal_room_substitution :
    handle_cluster_message
      (ClusterMessage.WebRTCSignal "r2" 1 2 "offer" "SDP_A")
      [(2, { user := { user_id := 2, username := "bob" },
             connection_id := 22 })] "n2" =
      [(22, ServerMessage.Offer "cluster" 1 "SDP_A")] ∧
    "cluster" ≠ "r2" ∧
    handle_cluster_message
      (ClusterMessage.WebRTCSignal "r2" 1 2 "offer" "SDP_A")
      [(3, { user := { user_id := 3, username := "eve" },
             connection_id := 33 })] "n2" = [] :=
  ⟨rfl, by decide, rfl⟩

/-- C9 (code observation): `register_user_in_redis` writes a
`ConnectionInfo` whose `connection_id` is the freshly generated UUID
(here 99), not the registering stream's actual connection id (here 7), so
the later cluster-mode `remove_user_from_all_rooms` comparison fails and
deletes neither the room-membership entry nor the connection mirror. -/
theorem register_connection_id_mismatch :
    hgetA (register_user_in_redis
        { roomParticipants := [], serverConnections := [] }
        "n1" "lobby" 1 "alice" 100 99).serverConnections
      "servers:n1:connections" 1 =
      some { user_id := 1, username := "alice", room_id := "lobby",
             connected_at := 100, connection_id := 99 } ∧
    cluster_remove_user_from_all_rooms
      (register_user_in_redis
        { roomParticipants := [], serverConnections := [] }
        "n1" "lobby" 1 "alice" 100 99) "n1" 1 7 =
      (register_user_in_redis
        { roomParticipants := [], serverConnections := [] }
        "n1" "lobby" 1 "alice" 100 99, []) ∧
    hgetA (register_user_in_redis
        { roomParticipants := [], serverConnections := [] }
        "n1" "lobby" 1 "alice" 100 99).roomParticipants
      "rooms:lobby:participants" 1 = some "n1" :=
  ⟨rfl, by decide, rfl⟩
